import Mathlib

/-
Verification of the echo-session-server repository: a socket-based
session server coordinating synchronized playback between a host and a
guest.  Each handler of the server is embedded as a pure function from
the session (or session store) and the message arguments to the new
state together with the list of emitted events.  The repository ships
several variants of the server; each namespace below embeds one variant:

  P0 : the variant with currentPlayback, likes and the 30-second
       host-reconnect deletion timer (src/unnamed/part_000)
  P1 : the variant with START_DELAY_MS = 800, duplicate-change
       suppression and a selector recorded inside pendingSong
       (src/unnamed/part_001)
  SJ : the socket.id based variant whose disconnect handler runs after
       a 5 second delay (second half of src/server.js)
-/

namespace P0

/-- A track: identified by its videoId, with opaque display metadata. -/
structure Song where
  videoId : Nat
  title : Nat
deriving DecidableEq, Repr

/-- A per-role profile ({username, profileImagePath}), opaque payload. -/
structure Profile where
  username : Nat
  profileImagePath : Nat
deriving DecidableEq, Repr

/-- The pendingSong record: part_000 stores the client payload, which is
read back only through its song and position fields (position may be
absent in the client payload, read with a 0 fallback). -/
structure PendingSong where
  song : Song
  position : Option Nat
deriving DecidableEq, Repr

/-- The currentPlayback snapshot {song, position, isPlaying, lastUpdateAt};
its song can be null when a playback_event carried no song. -/
structure Playback where
  song : Option Song
  position : Nat
  isPlaying : Bool
  lastUpdateAt : Nat
deriving DecidableEq, Repr

/-- A session of part_000.  Sockets are identified by opaque Nat handles;
deletionTimer models whether a deletion timer is currently pending;
room models the socket.io room membership of the session id. -/
structure Session where
  host : Option Nat
  guest : Option Nat
  readyHost : Bool
  readyGuest : Bool
  pendingSong : Option PendingSong
  queue : List Song
  profileHost : Option Profile
  profileGuest : Option Profile
  likesHost : List Nat
  likesGuest : List Nat
  currentPlayback : Option Playback
  deletionTimer : Bool
  room : List Nat
deriving DecidableEq, Repr

/-- Target of an emitted event: a single socket or the session room. -/
inductive Target where
  | sock (id : Nat)
  | room
deriving DecidableEq, Repr

/-- Outbound events of part_000 relevant to the verified handlers. -/
inductive Ev where
  | sessionCreated (sid : Nat)
  | invalidSession
  | sessionFull
  | guestJoined
  | sessionJoined (sid : Nat)
  | queueUpdated (q : List Song)
  | profilesUpdated (ph pg : Option Profile)
  | prepareSong (p : PendingSong)
  | syncPlay (p : PendingSong) (startAt sentAt : Nat)
  | partnerLeft (byHost : Bool)
  | sessionEnded
deriving DecidableEq, Repr

/-- An emission: target together with the event. -/
abbrev Emit := Target × Ev

/-- The session store: association list from session id to session. -/
abbrev Store := List (Nat × Session)

/-- Look a session up in the store (sessions[sessionId]). -/
def findSession (st : Store) (sid : Nat) : Option Session :=
  (st.find? (fun p => p.1 = sid)).map (fun p => p.2)

/-- Replace the session stored under an id. -/
def storeUpdate (st : Store) (sid : Nat) (s : Session) : Store :=
  st.map (fun p => if p.1 = sid then (sid, s) else p)

/-- clearDeletionTimer helper: cancels a pending deletion timer. -/
def clearDeletionTimer (s : Session) : Session :=
  { s with deletionTimer := false }

/-- create_session handler: fresh empty session with the caller as host. -/
def create_session (st : Store) (sock sid : Nat) : Store × List Emit :=
  let s : Session :=
    { host := some sock, guest := none,
      readyHost := false, readyGuest := false,
      pendingSong := none, queue := [],
      profileHost := none, profileGuest := none,
      likesHost := [], likesGuest := [],
      currentPlayback := none, deletionTimer := false,
      room := [sock] }
  (st ++ [(sid, s)], [(Target.sock sock, Ev.sessionCreated sid)])

/-- join_session handler of part_000: rejects an unknown id with
invalid_session and an occupied guest slot with session_full; otherwise
cancels any deletion timer, seats the caller as guest, sends the queue
snapshot and profiles, and re-enters the prepare handshake when a
currentPlayback snapshot with a song exists. -/
def join_session (st : Store) (sock sid : Nat) : Store × List Emit :=
  match findSession st sid with
  | none => (st, [(Target.sock sock, Ev.invalidSession)])
  | some s =>
    if s.guest.isSome then
      (st, [(Target.sock sock, Ev.sessionFull)])
    else
      let s1 := clearDeletionTimer s
      let s2 := { s1 with guest := some sock, room := s1.room ++ [sock] }
      let e1 := match s2.host with
        | some h => [(Target.sock h, Ev.guestJoined)]
        | none => []
      let e2 := [(Target.sock sock, Ev.sessionJoined sid),
                 (Target.sock sock, Ev.queueUpdated s2.queue)]
      let e3 := if s2.profileHost.isSome || s2.profileGuest.isSome then
                  [(Target.room, Ev.profilesUpdated s2.profileHost s2.profileGuest)]
                else []
      match s2.currentPlayback with
      | some cp =>
        match cp.song with
        | some sng =>
          let p : PendingSong := { song := sng, position := some cp.position }
          let s3 := { s2 with pendingSong := some p,
                              readyHost := true, readyGuest := false }
          let e4 := (match s3.host with
                      | some h => [(Target.sock h, Ev.prepareSong p)]
                      | none => []) ++
                    (match s3.guest with
                      | some g => [(Target.sock g, Ev.prepareSong p)]
                      | none => [])
          (storeUpdate st sid s3, e1 ++ e2 ++ e3 ++ e4)
        | none => (storeUpdate st sid s2, e1 ++ e2 ++ e3)
      | none => (storeUpdate st sid s2, e1 ++ e2 ++ e3)

/-- change_song handler of part_000: stores the payload as pendingSong,
resets both readiness flags, and emits prepare_song to each connected
peer.  The handler never inspects the sending socket. -/
def change_song (s : Session) ( sock : Nat) (data : PendingSong) :
    Session × List Emit :=
  let s1 := { s with pendingSong := some data,
                     readyHost := false, readyGuest := false }
  let eh := match s1.host with
    | some h => [(Target.sock h, Ev.prepareSong data)]
    | none => []
  let eg := match s1.guest with
    | some g => [(Target.sock g, Ev.prepareSong data)]
    | none => []
  (s1, eh ++ eg)

/-- ready_for_play handler of part_000: no-op without a pendingSong;
marks the caller's role ready; when both roles are ready it emits
sync_play (startAt = now + 600) to each connected peer, records
currentPlayback and clears the pending state. -/
def ready_for_play (s : Session) (sock : Nat) (now : Nat) :
    Session × List Emit :=
  match s.pendingSong with
  | none => (s, [])
  | some p =>
    let s1 :=
      if s.host = some sock then { s with readyHost := true }
      else if s.guest = some sock then { s with readyGuest := true }
      else s
    if s1.readyHost && s1.readyGuest then
      let startAt := now + 600
      let eh := match s1.host with
        | some h => [(Target.sock h, Ev.syncPlay p startAt now)]
        | none => []
      let eg := match s1.guest with
        | some g => [(Target.sock g, Ev.syncPlay p startAt now)]
        | none => []
      let s2 := { s1 with
        currentPlayback := some { song := some p.song,
                                  position := p.position.getD 0,
                                  isPlaying := true,
                                  lastUpdateAt := startAt },
        pendingSong := none, readyHost := false, readyGuest := false }
      (s2, eh ++ eg)
    else (s1, [])

/-- add_to_queue handler of part_000: appends the song unless a song
with the same videoId is already queued, then broadcasts the queue. -/
def add_to_queue (s : Session) ( sock : Nat) (song : Song) :
    Session × List Emit :=
  let q := if s.queue.any (fun t => t.videoId = song.videoId)
           then s.queue else s.queue ++ [song]
  ({ s with queue := q }, [(Target.room, Ev.queueUpdated q)])

/-- remove_from_queue handler of part_000: filters the id out and
broadcasts the queue. -/
def remove_from_queue (s : Session) ( sock : Nat) (videoId : Nat) :
    Session × List Emit :=
  let q := s.queue.filter (fun t => t.videoId ≠ videoId)
  ({ s with queue := q }, [(Target.room, Ev.queueUpdated q)])

/-- move_in_queue handler of part_000: silently ignores out-of-range
indices; otherwise splices the element out at oldIndex and back in at
newIndex (JavaScript splice clamps the insertion index to the array
length), then broadcasts the queue. -/
def move_in_queue (s : Session) ( sock : Nat) (oldIndex newIndex : Int) :
    Session × List Emit :=
  let q := s.queue
  if oldIndex < 0 ∨ oldIndex ≥ (q.length : Int) ∨
     newIndex < 0 ∨ newIndex > (q.length : Int) then
    (s, [])
  else
    let oi := oldIndex.toNat
    let ni := newIndex.toNat
    match q.get? oi with
    | none => (s, [])
    | some song =>
      let q1 := q.take oi ++ q.drop (oi + 1)
      let q2 := q1.take ni ++ song :: q1.drop ni
      ({ s with queue := q2 }, [(Target.room, Ev.queueUpdated q2)])

/-- update_queue handler of part_000: installs the caller-provided list
verbatim and broadcasts it. -/
def update_queue (s : Session) ( sock : Nat) (queue : List Song) :
    Session × List Emit :=
  ({ s with queue := queue }, [(Target.room, Ev.queueUpdated queue)])

/-- clear_queue handler of part_000. -/
def clear_queue (s : Session) ( sock : Nat) : Session × List Emit :=
  ({ s with queue := [] }, [(Target.room, Ev.queueUpdated [])])

/-- Per-session effect of the disconnect handler of part_000: a host
disconnect clears the host slot, profile and likes, notifies the guest
and (re)starts the 30 second deletion timer; a guest disconnect clears
the guest slot, profile and likes and broadcasts the profiles.  The
session itself is never removed here. -/
def disconnectSession (s : Session) (sock : Nat) : Session × List Emit :=
  if s.host = some sock ∨ s.guest = some sock then
    if s.host = some sock then
      let e1 := match s.guest with
        | some o => [(Target.sock o, Ev.partnerLeft true)]
        | none => []
      ({ s with host := none, profileHost := none, likesHost := [],
                deletionTimer := true, room := s.room.erase sock }, e1)
    else
      let e1 := match s.host with
        | some o => [(Target.sock o, Ev.partnerLeft false)]
        | none => []
      let s1 := { s with guest := none, profileGuest := none,
                         likesGuest := [], room := s.room.erase sock }
      (s1, e1 ++ [(Target.room, Ev.profilesUpdated s1.profileHost s1.profileGuest)])
  else (s, [])

/-- disconnect handler of part_000: applies the per-session effect to
every session of the store; no session is deleted. -/
def disconnect (st : Store) (sock : Nat) : Store × List Emit :=
  (st.map (fun p => (p.1, (disconnectSession p.2 sock).1)),
   (st.map (fun p => (disconnectSession p.2 sock).2)).flatten)

/-- Firing of the deletion timer scheduled on host disconnect: if the
session still exists, broadcast session_ended once and delete it. -/
def deletionTimerFire (st : Store) (sid : Nat) : Store × List Emit :=
  match findSession st sid with
  | none => (st, [])
  | some _ => (st.filter (fun p => p.1 ≠ sid),
               [(Target.room, Ev.sessionEnded)])

/-- The queue ids of a session, for the uniqueness invariant. -/
def queueIds (q : List Song) : List Nat := q.map (fun t => t.videoId)

end P0

namespace P1

/-- A role of the session, as recorded by lastSelector in part_001. -/
inductive Role where
  | host
  | guest
deriving DecidableEq, Repr

/-- pendingSong of part_001: payload plus the scheduled start and the
selector that initiated the change. -/
structure PendingSong where
  song : P0.Song
  position : Nat
  sentAt : Nat
  startAt : Nat
  selector : Option Role
deriving DecidableEq, Repr

/-- Session of part_001 (the fields the change_song handler touches). -/
structure Session where
  host : Option Nat
  guest : Option Nat
  readyHost : Bool
  readyGuest : Bool
  pendingSong : Option PendingSong
  queue : List P0.Song
  lastSelector : Option Role
deriving DecidableEq, Repr

/-- Outbound events of the part_001 change_song handler. -/
inductive Ev where
  | stop
  | prepareSong (p : PendingSong)
deriving DecidableEq, Repr

/-- An emission of part_001: recipient socket and event. -/
abbrev Emit := Nat × Ev

/-- change_song handler of part_001: identifies the selector from the
sending socket, suppresses a duplicate request (same videoId and same
selector as the pending change), otherwise records lastSelector,
schedules startAt = now + 800 (START_DELAY_MS), stores pendingSong with
the selector, resets both ready flags, and emits stop and prepare_song
to each connected peer. -/
def change_song (s : Session) (sock : Nat) (song : P0.Song)
    (position sentAt : Option Nat) (now : Nat) : Session × List Emit :=
  let selector : Option Role :=
    if s.host = some sock then some Role.host
    else if s.guest = some sock then some Role.guest
    else none
  let dup : Bool := match s.pendingSong with
    | some p => decide (p.song.videoId = song.videoId ∧ p.selector = selector)
    | none => false
  if dup then (s, [])
  else
    let startAt := now + 800
    let p : PendingSong :=
      { song := song, position := position.getD 0,
        sentAt := sentAt.getD now, startAt := startAt,
        selector := selector }
    let s1 := { s with lastSelector := selector, pendingSong := some p,
                       readyHost := false, readyGuest := false }
    let stops := (match s1.host with
                   | some h => [(h, Ev.stop)]
                   | none => []) ++
                 (match s1.guest with
                   | some g => [(g, Ev.stop)]
                   | none => [])
    let preps := (match s1.host with
                   | some h => [(h, Ev.prepareSong p)]
                   | none => []) ++
                 (match s1.guest with
                   | some g => [(g, Ev.prepareSong p)]
                   | none => [])
    (s1, stops ++ preps)

end P1

namespace SJ

/-- Session of the src/server.js variant, restricted to the fields its
disconnect handler reads (host and guest are socket ids there). -/
structure Session where
  host : Option Nat
  guest : Option Nat
  queue : List P0.Song
deriving DecidableEq, Repr

/-- Outbound events of the src/server.js disconnect handler. -/
inductive Ev where
  | partnerLeft (byHost : Bool)
deriving DecidableEq, Repr

/-- An emission: recipient socket id and event. -/
abbrev Emit := Nat × Ev

/-- Per-session effect of the src/server.js disconnect handler (the body
of its 5-second setTimeout): a host disconnect deletes the session with
no notification; a guest disconnect with a host reference deletes the
session too, notifying the host only if its socket is still connected;
a guest disconnect with no host reference leaves the session alone.
none means the session is removed from the store. -/
def disconnectSession (s : Session) (sock : Nat)
    (connected : Nat → Bool) : Option Session × List Emit :=
  if s.host = some sock ∨ s.guest = some sock then
    if s.host = some sock then (none, [])
    else
      match s.host with
      | some h =>
        (none, if connected h then [(h, Ev.partnerLeft false)] else [])
      | none => (some s, [])
  else (some s, [])

/-- disconnect handler of src/server.js (after its 5-second delay):
applies the per-session effect across the store, dropping the sessions
the handler deletes. -/
def disconnect (st : List (Nat × Session)) (sock : Nat)
    (connected : Nat → Bool) : List (Nat × Session) × List Emit :=
  (st.filterMap (fun p =>
      (disconnectSession p.2 sock connected).1.map (fun s => (p.1, s))),
   (st.map (fun p => (disconnectSession p.2 sock connected).2)).flatten)

end SJ

section Helpers

/-- Looking up the updated id after storeUpdate returns the new session,
provided the id was present. -/
theorem findSession_storeUpdate (st : P0.Store) (sid : Nat) (s' : P0.Session)
    (h : (P0.findSession st sid).isSome) :
    P0.findSession (P0.storeUpdate st sid s') sid = some s' := by
  induction st with
  | nil => simp [P0.findSession] at h
  | cons p tl ih =>
    by_cases hp : p.1 = sid
    · simp [P0.findSession, P0.storeUpdate, hp, List.find?_cons_of_pos]
    · simp only [P0.findSession, P0.storeUpdate, List.map_cons, if_neg hp] at *
      rw [List.find?_cons_of_neg _ (by simpa using hp)] at h ⊢
      exact ih h

/-- A concrete track used by the witnesses. -/
def exSong : P0.Song := { videoId := 5, title := 6 }

/-- A concrete pending song used by the witnesses. -/
def exPending : P0.PendingSong := { song := exSong, position := some 7 }

/-- A concrete playback snapshot used by the witnesses. -/
def exPlayback : P0.Playback :=
  { song := some exSong, position := 11, isPlaying := true, lastUpdateAt := 20 }

/-- A concrete session used by the witnesses: host socket 1 and guest
socket 2 joined, a pending song, neither role ready. -/
def exSession : P0.Session :=
  { host := some 1, guest := some 2,
    readyHost := false, readyGuest := false,
    pendingSong := some exPending,
    queue := [], profileHost := none, profileGuest := none,
    likesHost := [], likesGuest := [],
    currentPlayback := none, deletionTimer := false, room := [1, 2] }

/-- A second concrete track with a distinct videoId. -/
def exB : P0.Song := { videoId := 2, title := 2 }

/-- The splice performed by move_in_queue (eraseIdx at oi followed by a
clamped insertion at ni) is a permutation of the original queue. -/
theorem splice_perm (q : List P0.Song) (oi ni : Nat) (song : P0.Song)
    (hlt : oi < q.length) (hget : q[oi] = song) :
    List.Perm
      ((q.take oi ++ q.drop (oi+1)).take ni ++
        song :: (q.take oi ++ q.drop (oi+1)).drop ni) q := by
  have hsplit : q = q.take oi ++ song :: q.drop (oi+1) := by
    conv_lhs => rw [← List.take_append_drop oi q]
    rw [List.drop_eq_getElem_cons hlt, hget]
  refine List.Perm.trans List.perm_middle ?_
  rw [List.take_append_drop]
  conv_rhs => rw [hsplit]
  exact List.perm_middle.symm

/-- Whenever a ready_for_play call emits anything, the pending state was
consumed: the resulting session has no pendingSong. -/
theorem ready_emit_clears (s : P0.Session) (sock now : Nat)
    (hne : (P0.ready_for_play s sock now).2 ≠ []) :
    (P0.ready_for_play s sock now).1.pendingSong = none := by
  cases hps : s.pendingSong with
  | none => simp [P0.ready_for_play, hps] at hne
  | some p =>
    by_cases h1 : s.host = some sock
    · cases hrg : s.readyGuest with
      | false => simp [P0.ready_for_play, hps, h1, hrg] at hne
      | true => simp [P0.ready_for_play, hps, h1, hrg]
    · by_cases h2 : s.guest = some sock
      · cases hrh : s.readyHost with
        | false => simp [P0.ready_for_play, hps, h1, h2, hrh] at hne
        | true => simp [P0.ready_for_play, hps, h1, h2, hrh]
      · cases hrh : s.readyHost with
        | false => simp [P0.ready_for_play, hps, h1, h2, hrh] at hne
        | true =>
          cases hrg : s.readyGuest with
          | false => simp [P0.ready_for_play, hps, h1, h2, hrh, hrg] at hne
          | true => simp [P0.ready_for_play, hps, h1, h2, hrh, hrg]

end Helpers

/-- C1: for a session with a pendingSong and both flags still false, a
markReady from one role emits no sync_play; the markReady (here: from
the guest, with the host already ready) that makes both readiness flags
true emits exactly one sync_play to each connected peer, both carrying
the identical pending track and position and the identical absolute
start instant now + 600 ms, after which pendingSong is cleared and both
readiness flags are false. -/
theorem ready_for_play_sync_play_once (s : P0.Session) (p : P0.PendingSong)
    (h g sock now : Nat)
    (hp : s.pendingSong = some p) (hh : s.host = some h)
    (hg : s.guest = some g) :
    (s.readyHost = false → s.readyGuest = false →
      (P0.ready_for_play s sock now).2 = [])
    ∧ (s.readyHost = true → sock = g → h ≠ g →
        (P0.ready_for_play s sock now).2 =
          [(P0.Target.sock h, P0.Ev.syncPlay p (now + 600) now),
           (P0.Target.sock g, P0.Ev.syncPlay p (now + 600) now)]
        ∧ (P0.ready_for_play s sock now).1.pendingSong = none
        ∧ (P0.ready_for_play s sock now).1.readyHost = false
        ∧ (P0.ready_for_play s sock now).1.readyGuest = false) := by
  constructor
  · intro h1 h2
    simp only [P0.ready_for_play, hp]
    split
    · simp [h1, h2]
    · split
      · simp [h1, h2]
      · simp [h1, h2]
  · intro hr hsg hne
    subst hsg
    have hhost : ¬ (s.host = some sock) := by
      rw [hh]
      simp only [Option.some.injEq]
      exact hne
    simp [P0.ready_for_play, hp, hhost, hg, hr, hh, hne]

/-- C1 witness: concrete two-step run on exSession; the host's markReady
emits nothing, the guest's markReady then emits one sync_play to each
peer and clears the pending state. -/
theorem ready_for_play_sync_play_once_witness :
    (P0.ready_for_play exSession 1 1000).2 = []
    ∧ ((P0.ready_for_play { exSession with readyHost := true } 2 1000).2 =
        [(P0.Target.sock 1, P0.Ev.syncPlay exPending 1600 1000),
         (P0.Target.sock 2, P0.Ev.syncPlay exPending 1600 1000)]
       ∧ (P0.ready_for_play { exSession with readyHost := true } 2 1000).1.pendingSong = none
       ∧ (P0.ready_for_play { exSession with readyHost := true } 2 1000).1.readyHost = false
       ∧ (P0.ready_for_play { exSession with readyHost := true } 2 1000).1.readyGuest = false) :=
  ⟨(ready_for_play_sync_play_once exSession exPending
      1 2 1 1000 rfl rfl rfl).1 rfl rfl,
   (ready_for_play_sync_play_once { exSession with readyHost := true }
      exPending 1 2 2 1000 rfl rfl rfl).2 rfl rfl (by decide)⟩

/-- C5: markReady is a no-op (state and emissions) when there is no
pendingSong; a repeated markReady from the host while the guest is not
ready changes nothing observable and emits nothing; and once a call has
emitted anything (the sync_play trigger), any further markReady on the
resulting state is a no-op, so sync_play cannot fire twice for one
pending change. -/
theorem ready_for_play_no_pending_no_op (s : P0.Session)
    (p : P0.PendingSong) (sock sock2 now now2 : Nat) :
    (s.pendingSong = none → P0.ready_for_play s sock now = (s, []))
    ∧ (s.pendingSong = some p → s.host = some sock → s.readyHost = true →
        s.readyGuest = false → P0.ready_for_play s sock now = (s, []))
    ∧ ((P0.ready_for_play s sock now).2 ≠ [] →
        P0.ready_for_play (P0.ready_for_play s sock now).1 sock2 now2 =
          ((P0.ready_for_play s sock now).1, [])) := by
  refine ⟨fun h0 => by simp [P0.ready_for_play, h0], ?_, ?_⟩
  · intro hp hh hr hg
    cases s with
    | mk host guest rh rg ps q ph pg lh lg cp dt rm =>
      simp only at hp hh hr hg
      subst hp hh hr hg
      simp [P0.ready_for_play]
  · intro hne
    have hclear := ready_emit_clears s sock now hne
    generalize hgen : (P0.ready_for_play s sock now).1 = r at hclear ⊢
    simp [P0.ready_for_play, hclear]

/-- C5 witness: concrete no-op runs on exSession variants. -/
theorem ready_for_play_no_pending_no_op_witness :
    (P0.ready_for_play { exSession with pendingSong := none } 1 1000 =
      ({ exSession with pendingSong := none }, []))
    ∧ (P0.ready_for_play { exSession with readyHost := true } 1 1000 =
        ({ exSession with readyHost := true }, []))
    ∧ ((P0.ready_for_play { exSession with readyHost := true, readyGuest := false } 1 1000).2 ≠ [] →
        True) :=
  ⟨(ready_for_play_no_pending_no_op { exSession with pendingSong := none }
      exPending 1 1 1000 1000).1 rfl,
   (ready_for_play_no_pending_no_op { exSession with readyHost := true }
      exPending 1 1 1000 1000).2.1 rfl rfl rfl rfl,
   fun _ => trivial⟩

/-- C3 counterexample: the change_song handler produces the same state
and the same emissions whether the host (socket 1) or the guest
(socket 2) of exSession requests the change, so the resulting
pendingSong cannot record the initiating role; in fact it holds exactly
the requested track and position and nothing else. -/
theorem change_song_ignores_initiator_cex :
    P0.change_song exSession 1
        { song := { videoId := 8, title := 9 }, position := some 4 } =
      P0.change_song exSession 2
        { song := { videoId := 8, title := 9 }, position := some 4 }
    ∧ (P0.change_song exSession 1
        { song := { videoId := 8, title := 9 }, position := some 4 }).1.pendingSong =
      some { song := { videoId := 8, title := 9 }, position := some 4 } := by
  exact ⟨rfl, rfl⟩

/-- C3 (amended): for every existing session (whatever change may be in
flight) and any sender, change_song succeeds: it sets pendingSong to the
requested track and position (the initiating role is not recorded),
resets both readiness flags, emits a prepare_song carrying the track and
position to both connected peers, and starts no playback (currentPlayback
is untouched and no sync_play is emitted). -/
theorem change_song_always_prepares (s : P0.Session) (sock h g : Nat)
    (d : P0.PendingSong) (hh : s.host = some h) (hg : s.guest = some g) :
    (P0.change_song s sock d).1.pendingSong = some d
    ∧ (P0.change_song s sock d).1.readyHost = false
    ∧ (P0.change_song s sock d).1.readyGuest = false
    ∧ (P0.change_song s sock d).2 =
        [(P0.Target.sock h, P0.Ev.prepareSong d),
         (P0.Target.sock g, P0.Ev.prepareSong d)]
    ∧ (P0.change_song s sock d).1.currentPlayback = s.currentPlayback
    ∧ ∀ t e, (t, e) ∈ (P0.change_song s sock d).2 →
        ∀ p sa sn, e ≠ P0.Ev.syncPlay p sa sn := by
  refine ⟨by simp [P0.change_song], by simp [P0.change_song],
          by simp [P0.change_song], by simp [P0.change_song, hh, hg],
          by simp [P0.change_song], ?_⟩
  intro t e hmem p sa sn
  simp [P0.change_song, hh, hg] at hmem
  rcases hmem with ⟨_, he⟩ | ⟨_, he⟩ <;> subst he <;> simp

/-- C3 witness: concrete preempting change on exSession (which already
has a pendingSong). -/
theorem change_song_always_prepares_witness :
    (P0.change_song exSession 1
        { song := { videoId := 8, title := 9 }, position := some 4 }).1.pendingSong =
      some { song := { videoId := 8, title := 9 }, position := some 4 }
    ∧ (P0.change_song exSession 1
        { song := { videoId := 8, title := 9 }, position := some 4 }).2 =
        [(P0.Target.sock 1, P0.Ev.prepareSong
            { song := { videoId := 8, title := 9 }, position := some 4 }),
         (P0.Target.sock 2, P0.Ev.prepareSong
            { song := { videoId := 8, title := 9 }, position := some 4 })] :=
  ⟨(change_song_always_prepares exSession 1 1 2
      { song := { videoId := 8, title := 9 }, position := some 4 } rfl rfl).1,
   (change_song_always_prepares exSession 1 1 2
      { song := { videoId := 8, title := 9 }, position := some 4 } rfl rfl).2.2.2.1⟩

/-- C4: a successful join into a session whose currentPlayback snapshot
carries a song sends the joiner the queue snapshot, the profiles when
any are set (as a room broadcast the joiner is a member of), and seeds a
fresh prepare handshake from the snapshot with the host marked ready and
the guest not ready; the joiner receives the prepare_song. -/
theorem join_syncs_late_joiner (st : P0.Store) (sock sid : Nat)
    (s : P0.Session) (cp : P0.Playback) (sng : P0.Song)
    (hs : P0.findSession st sid = some s) (hg : s.guest = none)
    (hcp : s.currentPlayback = some cp) (hsng : cp.song = some sng) :
    (P0.Target.sock sock, P0.Ev.queueUpdated s.queue) ∈
        (P0.join_session st sock sid).2
    ∧ (s.profileHost.isSome ∨ s.profileGuest.isSome →
        (P0.Target.room, P0.Ev.profilesUpdated s.profileHost s.profileGuest) ∈
          (P0.join_session st sock sid).2)
    ∧ (∃ s3, P0.findSession (P0.join_session st sock sid).1 sid = some s3
        ∧ s3.pendingSong = some { song := sng, position := some cp.position }
        ∧ s3.readyHost = true ∧ s3.readyGuest = false
        ∧ sock ∈ s3.room)
    ∧ (P0.Target.sock sock,
        P0.Ev.prepareSong { song := sng, position := some cp.position }) ∈
        (P0.join_session st sock sid).2 := by
  have hsome : (P0.findSession st sid).isSome := by rw [hs]; rfl
  simp only [P0.join_session, hs, hg, P0.clearDeletionTimer]
  simp only [Option.isSome_none, Bool.false_eq_true, if_false, hcp, hsng]
  refine ⟨by simp, ?_, ?_, ?_⟩
  · intro hprof
    have : (s.profileHost.isSome || s.profileGuest.isSome) = true := by
      rcases hprof with h1 | h1 <;> simp [h1]
    simp [this]
  · refine ⟨_, findSession_storeUpdate st sid _ hsome, rfl, rfl, rfl, ?_⟩
    simp
  · simp

/-- A concrete one-member session with an active playback snapshot,
used by the C4 witness. -/
def exSolo : P0.Session :=
  { exSession with guest := none, currentPlayback := some exPlayback }

/-- C4 witness: socket 3 joins a one-member session with an active
playback snapshot. -/
theorem join_syncs_late_joiner_witness :
    (P0.Target.sock 3, P0.Ev.queueUpdated exSolo.queue) ∈
      (P0.join_session [(0, exSolo)] 3 0).2
    ∧ (∃ s3, P0.findSession (P0.join_session [(0, exSolo)] 3 0).1 0 = some s3
        ∧ s3.pendingSong = some { song := exSong, position := some 11 }
        ∧ s3.readyHost = true ∧ s3.readyGuest = false ∧ 3 ∈ s3.room) :=
  ⟨(join_syncs_late_joiner [(0, exSolo)] 3 0 exSolo exPlayback exSong
      rfl rfl rfl rfl).1,
   (join_syncs_late_joiner [(0, exSolo)] 3 0 exSolo exPlayback exSong
      rfl rfl rfl rfl).2.2.1⟩

/-- C8: join on an unknown id emits invalid_session to the requester
only and leaves the store unchanged; join on a session with an occupied
guest slot emits session_full to the requester only and leaves the
store unchanged; otherwise the caller is seated as guest and receives
session_joined. -/
theorem join_session_errors (st : P0.Store) (sock sid : Nat) :
    (P0.findSession st sid = none →
      P0.join_session st sock sid =
        (st, [(P0.Target.sock sock, P0.Ev.invalidSession)]))
    ∧ (∀ s g, P0.findSession st sid = some s → s.guest = some g →
        P0.join_session st sock sid =
          (st, [(P0.Target.sock sock, P0.Ev.sessionFull)]))
    ∧ (∀ s, P0.findSession st sid = some s → s.guest = none →
        (P0.findSession (P0.join_session st sock sid).1 sid).map
            (fun t => t.guest) = some (some sock)
        ∧ (P0.Target.sock sock, P0.Ev.sessionJoined sid) ∈
            (P0.join_session st sock sid).2) := by
  refine ⟨fun h0 => by simp [P0.join_session, h0], ?_, ?_⟩
  · intro s g hs hg
    simp [P0.join_session, hs, hg]
  · intro s hs hg
    have hsome : (P0.findSession st sid).isSome := by rw [hs]; rfl
    simp only [P0.join_session, hs, hg, Option.isSome_none, Bool.false_eq_true,
      if_false]
    split
    · split
      · constructor
        · rw [findSession_storeUpdate st sid _ hsome]; rfl
        · simp [P0.clearDeletionTimer]
      · constructor
        · rw [findSession_storeUpdate st sid _ hsome]; rfl
        · simp [P0.clearDeletionTimer]
    · constructor
      · rw [findSession_storeUpdate st sid _ hsome]; rfl
      · simp [P0.clearDeletionTimer]

/-- C8 witness: concrete store with one session: unknown id rejected,
full session rejected, empty guest slot joined. -/
theorem join_session_errors_witness :
    (P0.join_session [(0, exSession)] 3 9 =
      ([(0, exSession)], [(P0.Target.sock 3, P0.Ev.invalidSession)]))
    ∧ (P0.join_session [(0, exSession)] 3 0 =
        ([(0, exSession)], [(P0.Target.sock 3, P0.Ev.sessionFull)]))
    ∧ ((P0.findSession
          (P0.join_session [(0, { exSession with guest := none })] 3 0).1 0).map
            (fun t => t.guest) = some (some 3)
       ∧ (P0.Target.sock 3, P0.Ev.sessionJoined 0) ∈
           (P0.join_session [(0, { exSession with guest := none })] 3 0).2) :=
  ⟨(join_session_errors [(0, exSession)] 3 9).1 (by decide),
   (join_session_errors [(0, exSession)] 3 0).2.1 exSession 2 (by decide) rfl,
   (join_session_errors [(0, { exSession with guest := none })] 3 0).2.2
      { exSession with guest := none } (by decide) rfl⟩

/-- C7 counterexample: update_queue (the wholesale replacement) installs
the caller-provided list verbatim; replacing exSession's queue by a list
holding two tracks that share videoId 5 leaves a duplicate id in the
queue, so uniqueness by id is not preserved by every queue operation. -/
theorem update_queue_duplicates_cex :
    ¬ (P0.queueIds (P0.update_queue exSession 1
        [exSong, { videoId := 5, title := 7 }]).1.queue).Nodup := by decide

/-- C7 (amended): the uniqueness-by-id invariant of the queue is
preserved by add (which appends only when the id is absent and leaves
the queue unchanged when it is present), by remove, by move and by
clear; it is not preserved by update_queue, which installs the
caller-provided list verbatim. -/
theorem queue_ops_preserve_unique (s : P0.Session) (sock vid : Nat)
    (song : P0.Song) (oldIndex newIndex : Int)
    (hnd : (P0.queueIds s.queue).Nodup) :
    (P0.queueIds (P0.add_to_queue s sock song).1.queue).Nodup
    ∧ (song.videoId ∈ P0.queueIds s.queue →
        (P0.add_to_queue s sock song).1.queue = s.queue)
    ∧ (P0.queueIds (P0.remove_from_queue s sock vid).1.queue).Nodup
    ∧ (P0.queueIds (P0.move_in_queue s sock oldIndex newIndex).1.queue).Nodup
    ∧ (P0.queueIds (P0.clear_queue s sock).1.queue).Nodup := by
  refine ⟨?_, ?_, ?_, ?_, by simp [P0.clear_queue, P0.queueIds]⟩
  · simp only [P0.add_to_queue]
    split
    · exact hnd
    · next hany =>
      have hnotin : song.videoId ∉ List.map (fun t => t.videoId) s.queue := by
        intro hmem
        rw [List.mem_map] at hmem
        obtain ⟨t, ht, he⟩ := hmem
        exact hany (by
          simp only [List.any_eq_true, decide_eq_true_eq]
          exact ⟨t, ht, he⟩)
      simp only [P0.queueIds, List.map_append, List.map_cons, List.map_nil]
      rw [List.nodup_append]
      refine ⟨by simpa [P0.queueIds] using hnd, List.nodup_singleton _, ?_⟩
      rw [List.disjoint_singleton]
      exact hnotin
  · intro hmem
    have hany : (s.queue.any fun t => t.videoId = song.videoId) = true := by
      simp only [P0.queueIds, List.mem_map] at hmem
      obtain ⟨t, ht, he⟩ := hmem
      simp only [List.any_eq_true, decide_eq_true_eq]
      exact ⟨t, ht, he⟩
    simp [P0.add_to_queue, hany]
  · have hsub : List.Sublist
        ((P0.remove_from_queue s sock vid).1.queue) s.queue := by
      simp only [P0.remove_from_queue]
      exact List.filter_sublist s.queue
    simp only [P0.queueIds] at hnd ⊢
    exact hnd.sublist (hsub.map (fun t => t.videoId))
  · simp only [P0.move_in_queue]
    split
    · exact hnd
    · next hrange =>
      push_neg at hrange
      obtain ⟨h0, h1, h2, h3⟩ := hrange
      have hlt : oldIndex.toNat < s.queue.length := by omega
      have hget : s.queue.get? oldIndex.toNat =
          some s.queue[oldIndex.toNat] := by
        rw [List.get?_eq_getElem?]
        exact List.getElem?_eq_getElem hlt
      rw [hget]
      simp only [P0.queueIds] at hnd ⊢
      exact hnd.perm
        ((splice_perm s.queue oldIndex.toNat newIndex.toNat
            s.queue[oldIndex.toNat] hlt rfl).map (fun t => t.videoId)).symm

/-- C7 witness: adding a fresh track, a duplicate of it, removing and
moving on a concrete two-track queue keep ids unique. -/
theorem queue_ops_preserve_unique_witness :
    (P0.queueIds (P0.add_to_queue { exSession with queue := [exSong, exB] }
        1 { videoId := 3, title := 3 }).1.queue).Nodup
    ∧ (5 ∈ P0.queueIds ({ exSession with queue := [exSong, exB] } : P0.Session).queue →
        (P0.add_to_queue { exSession with queue := [exSong, exB] } 1
          { videoId := 5, title := 9 }).1.queue = [exSong, exB])
    ∧ (P0.queueIds (P0.move_in_queue { exSession with queue := [exSong, exB] }
        1 0 2).1.queue).Nodup :=
  ⟨(queue_ops_preserve_unique { exSession with queue := [exSong, exB] } 1 0
      { videoId := 3, title := 3 } 0 2 (by decide)).1,
   fun h => (queue_ops_preserve_unique { exSession with queue := [exSong, exB] }
      1 0 { videoId := 5, title := 9 } 0 2 (by decide)).2.1 h,
   (queue_ops_preserve_unique { exSession with queue := [exSong, exB] } 1 0
      { videoId := 3, title := 3 } 0 2 (by decide)).2.2.2.1⟩

/-- C9 counterexample: on the two-track queue, move(0, 2) is in range
per the claim (oldIndex in 0..1, newIndex in 0..2), yet the moved
element ends at index 1, not at newIndex 2: JavaScript splice clamps the
insertion position to the shortened array's length. -/
theorem move_to_length_not_at_newIndex_cex :
    (P0.move_in_queue { exSession with queue := [exSong, exB] } 9 0 2).1.queue
      = [exB, exSong]
    ∧ (P0.move_in_queue { exSession with queue := [exSong, exB] }
        9 0 2).1.queue.get? 2 ≠ some exSong := by decide

/-- C9 (amended): move with either index out of range leaves the queue
unchanged and emits nothing; with both indices in range, exactly the
element at oldIndex is relocated to position min(newIndex, length-1) of
the result, the relative order of all other elements is preserved
(deleting the relocated element from the result yields the original
queue minus that element), and one queue_updated broadcast is issued. -/
theorem move_in_queue_range_spec (s : P0.Session) (sock : Nat)
    (oldIndex newIndex : Int) :
    ((oldIndex < 0 ∨ oldIndex ≥ (s.queue.length : Int) ∨ newIndex < 0 ∨
        newIndex > (s.queue.length : Int)) →
      P0.move_in_queue s sock oldIndex newIndex = (s, []))
    ∧ (0 ≤ oldIndex → oldIndex < (s.queue.length : Int) → 0 ≤ newIndex →
        newIndex ≤ (s.queue.length : Int) →
        ∃ song A B,
          s.queue.get? oldIndex.toNat = some song
          ∧ (P0.move_in_queue s sock oldIndex newIndex).1.queue = A ++ song :: B
          ∧ A ++ B =
              s.queue.take oldIndex.toNat ++ s.queue.drop (oldIndex.toNat + 1)
          ∧ A.length = min newIndex.toNat (s.queue.length - 1)
          ∧ (P0.move_in_queue s sock oldIndex newIndex).2 =
              [(P0.Target.room, P0.Ev.queueUpdated
                  (P0.move_in_queue s sock oldIndex newIndex).1.queue)]) := by
  constructor
  · intro h
    simp only [P0.move_in_queue, if_pos h]
  · intro h0 h1 h2 h3
    have hcond : ¬ (oldIndex < 0 ∨ oldIndex ≥ (s.queue.length : Int) ∨
        newIndex < 0 ∨ newIndex > (s.queue.length : Int)) := by
      push_neg
      exact ⟨h0, h1, h2, h3⟩
    have hlt : oldIndex.toNat < s.queue.length := by omega
    have hget : s.queue.get? oldIndex.toNat =
        some s.queue[oldIndex.toNat] := by
      rw [List.get?_eq_getElem?]
      exact List.getElem?_eq_getElem hlt
    refine ⟨s.queue[oldIndex.toNat],
      (s.queue.take oldIndex.toNat ++
        s.queue.drop (oldIndex.toNat + 1)).take newIndex.toNat,
      (s.queue.take oldIndex.toNat ++
        s.queue.drop (oldIndex.toNat + 1)).drop newIndex.toNat,
      hget, ?_, List.take_append_drop _ _, ?_, ?_⟩
    · simp only [P0.move_in_queue, if_neg hcond, hget]
    · rw [List.length_take]
      congr 1
      simp only [List.length_append, List.length_take, List.length_drop]
      omega
    · simp only [P0.move_in_queue, if_neg hcond, hget]

/-- C9 witness: the in-range branch at a concrete queue. -/
theorem move_in_queue_range_spec_witness :
    (P0.move_in_queue { exSession with queue := [exSong, exB] } 9 5 0 =
      ({ exSession with queue := [exSong, exB] }, []))
    ∧ (∃ song A B,
        ({ exSession with queue := [exSong, exB] } : P0.Session).queue.get? 0 =
          some song
        ∧ (P0.move_in_queue { exSession with queue := [exSong, exB] }
            9 0 1).1.queue = A ++ song :: B
        ∧ A ++ B = [exB]
        ∧ A.length = 1) :=
  ⟨(move_in_queue_range_spec { exSession with queue := [exSong, exB] } 9 5 0).1
      (by decide),
   by
    obtain ⟨song, A, B, hg, he, hab, hl, _⟩ :=
      (move_in_queue_range_spec { exSession with queue := [exSong, exB] }
        9 0 1).2 (by decide) (by decide) (by decide) (by decide)
    exact ⟨song, A, B, hg, he, hab, hl⟩⟩

/-- The state the part_000 disconnect handler leaves a session in after
its host (socket h) disconnects. -/
def hostCleared (s : P0.Session) (h : Nat) : P0.Session :=
  { s with host := none, profileHost := none, likesHost := [],
           deletionTimer := true, room := s.room.erase h }

/-- C2 counterexample: host socket 1 of exSession disconnects while
guest socket 2 is still seated; the deletion timer starts; a join
request by socket 3 then arrives before the timer fires, but it is
rejected with session_full and the timer is NOT cancelled — the claim
that any join arriving before the deadline cancels the timer fails. -/
theorem join_full_no_timer_cancel_cex :
    (P0.disconnect [(0, exSession)] 1).2 =
      [(P0.Target.sock 2, P0.Ev.partnerLeft true)]
    ∧ ((P0.findSession (P0.disconnect [(0, exSession)] 1).1 0).map
        (fun t => t.deletionTimer) = some true)
    ∧ (P0.join_session (P0.disconnect [(0, exSession)] 1).1 3 0).2 =
        [(P0.Target.sock 3, P0.Ev.sessionFull)]
    ∧ ((P0.findSession
          (P0.join_session (P0.disconnect [(0, exSession)] 1).1 3 0).1 0).map
        (fun t => t.deletionTimer) = some true) := by decide

/-- C2 (amended): a host disconnect never removes the session
immediately: the host slot and profile are cleared, the guest (when
seated) receives partner_left, and the single deletion timer is set; a
join that finds the guest slot free cancels the timer and the session
survives, while a join that finds the guest slot occupied is rejected
with session_full and leaves the timer running; when the timer fires
the session is removed and the room receives exactly one session_ended. -/
theorem host_disconnect_grace (sid h : Nat) (s : P0.Session)
    (hh : s.host = some h) :
    ∃ s1, P0.findSession (P0.disconnect [(sid, s)] h).1 sid = some s1
      ∧ s1.host = none ∧ s1.profileHost = none ∧ s1.deletionTimer = true
      ∧ s1.guest = s.guest ∧ s1.queue = s.queue
      ∧ s1.pendingSong = s.pendingSong
      ∧ (∀ g, s.guest = some g →
          (P0.disconnect [(sid, s)] h).2 =
            [(P0.Target.sock g, P0.Ev.partnerLeft true)])
      ∧ (s.guest = none → ∀ sock, ∃ s2,
          P0.findSession (P0.join_session [(sid, s1)] sock sid).1 sid = some s2
          ∧ s2.deletionTimer = false)
      ∧ (∀ g, s.guest = some g → ∀ sock,
          P0.join_session [(sid, s1)] sock sid =
            ([(sid, s1)], [(P0.Target.sock sock, P0.Ev.sessionFull)]))
      ∧ P0.deletionTimerFire [(sid, s1)] sid =
          ([], [(P0.Target.room, P0.Ev.sessionEnded)]) := by
  refine ⟨hostCleared s h, ?_, rfl, rfl, rfl, rfl, rfl, rfl, ?_, ?_, ?_, ?_⟩
  · simp [P0.disconnect, P0.disconnectSession, P0.findSession, List.find?, hh,
      hostCleared]
  · intro g hg
    simp [P0.disconnect, P0.disconnectSession, hh, hg]
  · intro hgnone sock
    have hfind : P0.findSession [(sid, hostCleared s h)] sid =
        some (hostCleared s h) := by
      simp [P0.findSession, List.find?]
    have hsome : (P0.findSession [(sid, hostCleared s h)] sid).isSome := by
      rw [hfind]; rfl
    have hcg : (hostCleared s h).guest.isSome = false := by
      simp [hostCleared, hgnone]
    simp only [P0.join_session, hfind, hcg, P0.clearDeletionTimer,
      Bool.false_eq_true, if_false]
    split
    · split
      · exact ⟨_, findSession_storeUpdate _ sid _ hsome, rfl⟩
      · exact ⟨_, findSession_storeUpdate _ sid _ hsome, rfl⟩
    · exact ⟨_, findSession_storeUpdate _ sid _ hsome, rfl⟩
  · intro g hg sock
    have hfind : P0.findSession [(sid, hostCleared s h)] sid =
        some (hostCleared s h) := by
      simp [P0.findSession, List.find?]
    have hcg : (hostCleared s h).guest.isSome = true := by
      simp [hostCleared, hg]
    simp [P0.join_session, hfind, hcg]
  · simp [P0.deletionTimerFire, P0.findSession, List.find?]

/-- C2 witness: the concrete exSession run with no guest seated, where
the reconnecting join does cancel the timer; plus the timer firing. -/
theorem host_disconnect_grace_witness :
    ∃ s1, P0.findSession
        (P0.disconnect [(7, { exSession with guest := none })] 1).1 7 = some s1
      ∧ s1.host = none ∧ s1.deletionTimer = true
      ∧ (∃ s2, P0.findSession (P0.join_session [(7, s1)] 3 7).1 7 = some s2
          ∧ s2.deletionTimer = false)
      ∧ P0.deletionTimerFire [(7, s1)] 7 =
          ([], [(P0.Target.room, P0.Ev.sessionEnded)]) := by
  obtain ⟨s1, hfind, hhost, _, htimer, _, _, _, _, hjoin, _, hfire⟩ :=
    host_disconnect_grace 7 1 { exSession with guest := none } rfl
  exact ⟨s1, hfind, hhost, htimer, hjoin rfl 3, hfire⟩

/-- C6: evaluation of the src/server.js disconnect handler at the
failing input: session 0 holds host socket 1 (still connected) and
guest socket 2; when the guest's disconnect handler runs, the session
is deleted from the store (the host is notified partner_left), rather
than persisting with only the guest slot cleared as the claim states. -/
theorem sj_guest_disconnect_deletes_session :
    SJ.disconnect [(0, { host := some 1, guest := some 2, queue := [exSong] })] 2
        (fun n => n == 1) =
      ([], [(1, SJ.Ev.partnerLeft false)]) := by decide

/-- C10: a sender that is neither host nor guest of the session is not
rejected by the mutating handlers: change_song (part_001) still records
the pending song (with selector none), resets both readiness flags and
emits stop and prepare_song to both peers; add_to_queue (part_000)
still appends the fresh track and broadcasts the queue.  No handler
checks that the sender holds a role in the named session. -/
theorem unprivileged_sender_mutates (s1 : P1.Session) (s0 : P0.Session)
    (sock h g now : Nat) (song : P0.Song) (position sentAt : Option Nat)
    (hh : s1.host = some h) (hg : s1.guest = some g)
    (hsh : sock ≠ h) (hsg : sock ≠ g) (hp : s1.pendingSong = none)
    (hfresh : ¬ (s0.queue.any fun t => t.videoId = song.videoId)) :
    (∃ p : P1.PendingSong,
        p = { song := song, position := position.getD 0,
              sentAt := sentAt.getD now, startAt := now + 800,
              selector := none }
        ∧ (P1.change_song s1 sock song position sentAt now).1.pendingSong = some p
        ∧ (P1.change_song s1 sock song position sentAt now).1.readyHost = false
        ∧ (P1.change_song s1 sock song position sentAt now).1.readyGuest = false
        ∧ (P1.change_song s1 sock song position sentAt now).2 =
            [(h, P1.Ev.stop), (g, P1.Ev.stop),
             (h, P1.Ev.prepareSong p), (g, P1.Ev.prepareSong p)])
    ∧ ((P0.add_to_queue s0 sock song).1.queue = s0.queue ++ [song]
       ∧ (P0.add_to_queue s0 sock song).2 =
           [(P0.Target.room, P0.Ev.queueUpdated (s0.queue ++ [song]))]) := by
  have hhost : ¬ (s1.host = some sock) := by
    rw [hh]
    simp only [Option.some.injEq]
    exact fun e => hsh e.symm
  have hguest : ¬ (s1.guest = some sock) := by
    rw [hg]
    simp only [Option.some.injEq]
    exact fun e => hsg e.symm
  constructor
  · refine ⟨_, rfl, ?_, ?_, ?_, ?_⟩ <;>
      simp [P1.change_song, hhost, hguest, hp, hh, hg, Ne.symm hsh, Ne.symm hsg]
  · constructor
    · simp [P0.add_to_queue, hfresh]
    · simp [P0.add_to_queue, hfresh]

/-- A concrete part_001 session for the C10 witness: host socket 1,
guest socket 2, no pending change. -/
def exP1 : P1.Session :=
  { host := some 1, guest := some 2, readyHost := false,
    readyGuest := false, pendingSong := none, queue := [],
    lastSelector := none }

/-- C10 witness: socket 9 (no role in either session) mutates both. -/
theorem unprivileged_sender_mutates_witness :
    ((P1.change_song exP1 9 exSong (some 3) (some 4) 1000).1.pendingSong =
      some { song := exSong, position := 3, sentAt := 4, startAt := 1800,
             selector := none })
    ∧ (P0.add_to_queue exSession 9 exB).1.queue = [exB] := by
  obtain ⟨hchange, hadd⟩ :=
    unprivileged_sender_mutates exP1 exSession 9 1 2 1000 exSong
      (some 3) (some 4) rfl rfl (by decide) (by decide) rfl (by decide)
  obtain ⟨p, hpeq, hps, -, -, -⟩ := hchange
  refine ⟨?_, ?_⟩
  · rw [hps, hpeq]
    rfl
  · obtain ⟨hq, -⟩ :=
      (unprivileged_sender_mutates exP1 exSession 9 1 2 1000 exB
        (some 3) (some 4) rfl rfl (by decide) (by decide) rfl (by decide)).2
    exact hq
